import Mathlib

/-!
Shallow embedding of the optimistic cart store of
`src/apps/storefront/src/lib/context/cart-context.tsx`.

The store holds an `Option B2BCart` (the TS value `B2BCart | null`).  Its
three mutating operations — bulk add, delete line item, update quantity —
each (1) optionally guard on the target item being present, (2) apply an
optimistic updater to the state, capturing a deep-copy snapshot
(`structuredClone`) of the pre-mutation state, (3) issue at most one remote
call, and (4) on remote rejection reset the state to the captured snapshot.
JavaScript numbers are modelled as `Int` (all arithmetic in the claims is
on exact integer quantities and prices); optional / possibly-`undefined`
fields are modelled as `Option`; the JS `x || 0` and `x || undefined`
falsiness coercions are modelled explicitly.  Remote outcomes are made
explicit as a `Bool` parameter (`true` = the promise resolved); the
nondeterministic `new Date().toISOString()` is a `String` parameter.
-/

/-- JS `x || 0` on a number: `0` stays `0`, any other number is itself. -/
def jsOrZero (x : Int) : Int := if x = 0 then 0 else x

/-- JS `x || 0` where `x` may be `undefined` (e.g. `optimisticTotal || 0`
when `prev.items` was `undefined`). -/
def jsOrZeroOpt : Option Int → Int
  | none => 0
  | some x => jsOrZero x

/-- JS `s || ""` on a possibly-`undefined` string: `undefined` and `""` are
falsy, any other string is itself. -/
def jsOrEmpty : Option String → String
  | none => ""
  | some s => if s = "" then "" else s

/-- JS `s || undefined` on a possibly-`undefined` string: `""` collapses to
`undefined` (used for `thumbnail`). -/
def jsOrUndef : Option String → Option String
  | none => none
  | some s => if s = "" then none else some s

/-- Model of `StoreProduct` — only the fields the cart context reads. -/
structure StoreProduct where
  id : String
  thumbnail : Option String
deriving DecidableEq, Repr

/-- Model of `calculated_price` with its possibly-null `calculated_amount`. -/
structure CalculatedPrice where
  calculated_amount : Option Int
deriving DecidableEq, Repr

/-- Model of `StoreProductVariant` — only the fields the cart context reads. -/
structure StoreProductVariant where
  id : String
  title : Option String
  calculated_price : Option CalculatedPrice
  product : Option StoreProduct
deriving DecidableEq, Repr

/-- One cart line item (`StoreCartLineItem`), restricted to the fields the
cart context reads or writes.  The circular back-reference `cart` (set to
`prev || {}` when synthesizing) is omitted: it cannot be represented in an
inductive structure and no claim mentions it. -/
structure StoreCartLineItem where
  cart_id : String
  discount_tax_total : Int
  discount_total : Int
  id : String
  is_discountable : Bool
  is_tax_inclusive : Bool
  item_subtotal : Int
  item_tax_total : Int
  item_total : Int
  original_subtotal : Int
  original_tax_total : Int
  original_total : Int
  product : Option StoreProduct
  quantity : Int
  requires_shipping : Bool
  subtotal : Int
  tax_total : Int
  title : String
  total : Int
  thumbnail : Option String
  unit_price : Int
  variant : Option StoreProductVariant
  created_at : Option String
deriving DecidableEq, Repr

/-- Model of `B2BCart`, restricted to the fields the cart context reads or writes.
`id` is `Option` because the bulk-add updater can produce `{...null, ...}`,
an object with no `id` property; `items` is `Option` because the TS type
allows it to be `undefined`. -/
structure B2BCart where
  id : Option String
  item_subtotal : Int
  items : Option (List StoreCartLineItem)
deriving DecidableEq, Repr

/-- One payload entry of `AddToCartEventPayload.lineItems`. -/
structure PayloadLineItem where
  productVariant : StoreProductVariant
  quantity : Int
deriving DecidableEq, Repr

/-- The remote calls the store can issue (`addToCartBulk`,
`updateLineItem`, `deleteLineItem`), with the arguments the code passes. -/
inductive RemoteCall where
  | addBulk (lineItems : List (String × Int)) (countryCode : String)
  | updateLine (lineId : String) (quantity : Int)
  | deleteLine (lineId : String)
deriving DecidableEq, Repr

/-- Source `isOptimisticItemId`: `id.startsWith(OPTIMISTIC_ITEM_ID_PREFIX)` with
the reserved marker `"__optimistic__"` (stated on the underlying character
lists, which is what `startsWith` compares). -/
def isOptimisticItemId (id : String) : Bool :=
  List.isPrefixOf "__optimistic__".data id.data

/-- Source `generateOptimisticItemId`: the template literal
`` `${OPTIMISTIC_ITEM_ID_PREFIX}-${variantId}` ``. -/
def generateOptimisticItemId (variantId : String) : String :=
  "__optimistic__" ++ "-" ++ variantId

/-- Source `calculateCartTotal`: `cartItems.reduce((acc, item) => acc +
item.unit_price * item.quantity, 0) || 0`. -/
def calculateCartTotal (cartItems : List StoreCartLineItem) : Int :=
  jsOrZero (cartItems.foldl (fun acc item => acc + item.unit_price * item.quantity) 0)

/-- The sum the updaters recompute (`reduce((acc, item) => acc +
item.unit_price * item.quantity, 0)`), without the trailing `|| 0`. -/
def sumItems (items : List StoreCartLineItem) : Int :=
  items.foldl (fun acc item => acc + item.unit_price * item.quantity) 0

/-- Source `prev?.items || []` (an empty array is truthy in JS only when it is an
actual array, and `[] || x` is `[]`, so only `undefined` falls back). -/
def itemsOf (c : Option B2BCart) : List StoreCartLineItem :=
  (c.bind (·.items)).getD []

/-- The line item synthesized by `handleOptimisticAddToCart` for a payload
entry whose variant has no existing row (source lines 92–122).  `cartId` is
`prev?.id || ""`, `now` is the `new Date().toISOString()` value. -/
def newOptimisticItem (cartId : String) (now : String) (lineItem : PayloadLineItem) :
    StoreCartLineItem :=
  let priceAmount : Int :=
    jsOrZeroOpt (lineItem.productVariant.calculated_price.bind (·.calculated_amount))
  { cart_id := cartId
    discount_tax_total := 0
    discount_total := 0
    id := generateOptimisticItemId lineItem.productVariant.id
    is_discountable := false
    is_tax_inclusive := false
    item_subtotal := priceAmount
    item_tax_total := 0
    item_total := priceAmount
    original_subtotal := priceAmount
    original_tax_total := 0
    original_total := priceAmount
    product := lineItem.productVariant.product
    quantity := lineItem.quantity
    requires_shipping := true
    subtotal := priceAmount
    tax_total := 0
    title := jsOrEmpty lineItem.productVariant.title
    total := priceAmount
    thumbnail := jsOrUndef (lineItem.productVariant.product.bind (·.thumbnail))
    unit_price := priceAmount
    variant := some lineItem.productVariant
    created_at := some now }

/-- One iteration of the `for (const lineItem of lineItems)` loop in
`handleOptimisticAddToCart`: `findIndex(({variant}) => variant?.id ===
lineItem.productVariant.id)`; on a hit the first matching row's quantity is
bumped in place, otherwise the synthesized item is pushed at the end. -/
def addOnePair (cartId : String) (now : String) (lineItem : PayloadLineItem) :
    List StoreCartLineItem → List StoreCartLineItem
  | [] => [newOptimisticItem cartId now lineItem]
  | item :: rest =>
    if item.variant.map (·.id) = some lineItem.productVariant.id then
      { item with quantity := item.quantity + lineItem.quantity } :: rest
    else
      item :: addOnePair cartId now lineItem rest

/-- The optimistic updater of `handleOptimisticAddToCart` (source lines
67–134).  There is no null guard: `prev?.items || []` starts from `[]` and
the result spreads `...prev` (spreading `null` contributes nothing, so the
produced object has no `id` when `prev` is `null`). -/
def applyAddUpdater (now : String) (payload : List PayloadLineItem)
    (prev : Option B2BCart) : B2BCart :=
  let items := itemsOf prev
  let cartId := jsOrEmpty (prev.bind (·.id))
  let newItems := payload.foldl (fun acc lineItem => addOnePair cartId now lineItem acc) items
  { id := prev.bind (·.id)
    item_subtotal := calculateCartTotal newItems
    items := some newItems }

/-- Source `handleOptimisticAddToCart`: apply the optimistic updater (capturing
`prevCart = structuredClone(prev)`), issue `addToCartBulk` with the real
variant ids and quantities, and on rejection reset to the snapshot.
Returns the settled state and the issued remote call. -/
def runAddToCart (now : String) (payload : List PayloadLineItem) (countryCode : String)
    (c : Option B2BCart) (ok : Bool) : Option B2BCart × RemoteCall :=
  let prevCart := c
  let mutated : Option B2BCart := some (applyAddUpdater now payload c)
  let call := RemoteCall.addBulk
    (payload.map fun lineItem => (lineItem.productVariant.id, lineItem.quantity)) countryCode
  (if ok then mutated else prevCart, call)

/-- The optimistic updater of `handleDeleteItem` (source lines 163–180),
including its `if (!prev) return prev` guard. -/
def applyDeleteUpdater (lineItem : String) : Option B2BCart → Option B2BCart
  | none => none
  | some prev =>
    let optimisticItems := prev.items.map (·.filter fun item => item.id ≠ lineItem)
    let optimisticTotal := optimisticItems.map sumItems
    some { prev with
      item_subtotal := jsOrZeroOpt optimisticTotal
      items := optimisticItems }

/-- Source `handleDeleteItem`: no-op (no state change, no remote call) when
`optimisticCart?.items?.find(({id}) => id === lineItem)` is `undefined`;
otherwise apply the optimistic updater, issue `deleteLineItem`, and on
rejection reset to the `structuredClone` snapshot. -/
def runDeleteItem (c : Option B2BCart) (lineItem : String) (ok : Bool) :
    Option B2BCart × Option RemoteCall :=
  match (itemsOf c).find? (fun item => item.id = lineItem) with
  | none => (c, none)
  | some _ =>
    let prevCart := c
    let mutated := applyDeleteUpdater lineItem c
    (if ok then mutated else prevCart, some (RemoteCall.deleteLine lineItem))

/-- The optimistic updater of `handleUpdateCartQuantity` (source lines
200–225): a `reduce` that drops the matching row when the new quantity is
`0` and replaces its quantity otherwise, then recomputes the subtotal. -/
def applyUpdateUpdater (lineItem : String) (quantity : Int) :
    Option B2BCart → Option B2BCart
  | none => none
  | some prev =>
    let optimisticItems := prev.items.map fun items =>
      items.foldl (fun acc item =>
        if item.id = lineItem then
          if quantity = 0 then acc else acc ++ [{ item with quantity := quantity }]
        else acc ++ [item]) []
    let optimisticTotal := optimisticItems.map sumItems
    some { prev with
      item_subtotal := jsOrZeroOpt optimisticTotal
      items := optimisticItems }

/-- Source `handleUpdateCartQuantity`: no-op when the id is absent; otherwise
apply the optimistic updater, then issue `updateLineItem` **only when the
id is not an optimistic id**; on rejection of an issued call, reset to the
snapshot (when no call is issued there is nothing to fail, so the mutated
state stands). -/
def runUpdateCartQuantity (c : Option B2BCart) (lineItem : String) (quantity : Int)
    (ok : Bool) : Option B2BCart × Option RemoteCall :=
  match (itemsOf c).find? (fun item => item.id = lineItem) with
  | none => (c, none)
  | some _ =>
    let prevCart := c
    let mutated := applyUpdateUpdater lineItem quantity c
    if isOptimisticItemId lineItem then
      (mutated, none)
    else
      (if ok then mutated else prevCart, some (RemoteCall.updateLine lineItem quantity))

/-- JS string `a > b`: lexicographic comparison on code units.  The
timestamps compared are ISO-8601 ASCII strings, for which UTF-16 code
units and Unicode code points coincide. -/
def strGtAux : List Char → List Char → Bool
  | [], _ => false
  | _ :: _, [] => true
  | a :: as, b :: bs =>
    if b.toNat < a.toNat then true
    else if a.toNat < b.toNat then false
    else strGtAux as bs

/-- JS `a > b` on strings. -/
def strGt (a b : String) : Bool := strGtAux a.data b.data

/-- The sort key of `sortedItems`: `created_at ?? ""`. -/
def sortKey (item : StoreCartLineItem) : String := item.created_at.getD ""

/-- The `sortedItems` comparator `(a, b) => (a.created_at ?? "") >
(b.created_at ?? "") ? -1 : 1` places `a` before `b` exactly when `a`'s
key is strictly greater, and expresses no preference on key-equal ties
(it never returns `0`); `CartBefore a b` is the induced total preorder.
"`a` may come before `b`": `b`'s key is not strictly greater than `a`'s. -/
def CartBefore (a b : StoreCartLineItem) : Prop :=
  strGt (sortKey b) (sortKey a) = false

instance : DecidableRel CartBefore := fun a b =>
  inferInstanceAs (Decidable (strGt (sortKey b) (sortKey a) = false))

/-- The array produced by `items.sort(...)` in `sortedItems`: a
permutation of `items` ordered by `CartBefore` (the JS sort contract for
this comparator pins the result only up to key-equal ties; an insertion
sort under `CartBefore` realises it). -/
def sortCartItems (items : List StoreCartLineItem) : List StoreCartLineItem :=
  List.insertionSort CartBefore items

/-- The `sortedItems` memo: `optimisticCart?.items?.sort(...)`.
`Array.prototype.sort` sorts **in place** and returns the same array, so
computing the view also replaces the working cart's `items` with the
sorted array.  Returns (working cart after the computation, view). -/
def computeSortedItems (c : Option B2BCart) :
    Option B2BCart × Option (List StoreCartLineItem) :=
  match c with
  | none => (none, none)
  | some cart =>
    match cart.items with
    | none => (some cart, none)
    | some items =>
      let sorted := sortCartItems items
      (some { cart with items := some sorted }, some sorted)

/-! Concrete sample data, used to instantiate the theorems below at
specific inputs. -/

def sampleProductOne : StoreProduct :=
  { id := "prod_1", thumbnail := some "thumb.png" }

def sampleVariantOne : StoreProductVariant :=
  { id := "v1"
    title := some "Variant One"
    calculated_price := some { calculated_amount := some 50 }
    product := some sampleProductOne }

/-- Payload entry: variant `v1`, quantity 2. -/
def samplePayloadTwo : PayloadLineItem :=
  { productVariant := sampleVariantOne, quantity := 2 }

/-- Payload entry: variant `v1`, quantity 3. -/
def samplePayloadThree : PayloadLineItem :=
  { productVariant := sampleVariantOne, quantity := 3 }

/-- An authoritative (backend-issued id) line item. -/
def itemAuth : StoreCartLineItem :=
  { cart_id := "cart_1"
    discount_tax_total := 0
    discount_total := 0
    id := "li_1"
    is_discountable := false
    is_tax_inclusive := false
    item_subtotal := 100
    item_tax_total := 0
    item_total := 100
    original_subtotal := 100
    original_tax_total := 0
    original_total := 100
    product := some sampleProductOne
    quantity := 1
    requires_shipping := true
    subtotal := 100
    tax_total := 0
    title := "Item One"
    total := 100
    thumbnail := none
    unit_price := 100
    variant := none
    created_at := some "2024-01-01T00:00:00.000Z" }

/-- An optimistic (locally synthesized id) line item, newer than
`itemAuth`. -/
def itemOpt : StoreCartLineItem :=
  { itemAuth with
    id := "__optimistic__-v1"
    item_subtotal := 50
    item_total := 50
    original_subtotal := 50
    original_total := 50
    subtotal := 50
    total := 50
    unit_price := 50
    variant := some sampleVariantOne
    created_at := some "2024-01-02T00:00:00.000Z" }

/-- A cart holding `itemAuth` (older) then `itemOpt` (newer): its item
list is not in the descending-recency display order. -/
def cartAuth : B2BCart :=
  { id := some "cart_1", item_subtotal := 150, items := some [itemAuth, itemOpt] }

/-- The subtotal invariant: a tracked cart's `item_subtotal` equals the
sum of `unit_price * quantity` over its current item list. -/
def cartSubtotalOk : Option B2BCart → Prop
  | none => True
  | some cart => cart.item_subtotal = sumItems (cart.items.getD [])

/-! ### Basic lemmas about the JS falsiness helpers -/

theorem jsOrZero_eq (x : Int) : jsOrZero x = x := by
  by_cases h : x = 0 <;> simp [jsOrZero, h]

theorem jsOrZeroOpt_some (x : Int) : jsOrZeroOpt (some x) = x := by
  simp [jsOrZeroOpt, jsOrZero_eq]

theorem calculateCartTotal_eq_sumItems (items : List StoreCartLineItem) :
    calculateCartTotal items = sumItems items := by
  rw [show calculateCartTotal items = jsOrZero (sumItems items) from rfl, jsOrZero_eq]

/-! ### Failure paths of the three operations -/

theorem runAddToCart_fst_of_fail (now : String) (payload : List PayloadLineItem)
    (countryCode : String) (c : Option B2BCart) :
    (runAddToCart now payload countryCode c false).1 = c := rfl

theorem runDeleteItem_fst_of_fail (c : Option B2BCart) (lineItem : String) :
    (runDeleteItem c lineItem false).1 = c := by
  unfold runDeleteItem
  cases h : (itemsOf c).find? (fun item => item.id = lineItem) <;> simp

theorem runUpdateCartQuantity_fst_of_fail (c : Option B2BCart) (lineItem : String)
    (quantity : Int) (h : isOptimisticItemId lineItem = false) :
    (runUpdateCartQuantity c lineItem quantity false).1 = c := by
  unfold runUpdateCartQuantity
  cases hf : (itemsOf c).find? (fun item => item.id = lineItem) <;> simp [h]

/-- C1: when an operation's remote call fails, the store resets to the
deep-copy snapshot taken immediately before that operation's optimistic
mutation, so the post-revert cart is exactly the pre-operation cart `c`
(for update-quantity this concerns authoritative ids, the only case where
a remote call is issued and can fail); and since `c` is arbitrary, the
revert keeps every earlier successful optimistic mutation: a delete that
fails after a successful bulk add reverts to the post-add cart, not to any
older authoritative cart. -/
theorem failed_remote_reverts_to_pre_operation_snapshot
    (now : String) (payload : List PayloadLineItem) (countryCode : String)
    (c : Option B2BCart) (lineItem otherItem : String) (quantity : Int)
    (hauth : isOptimisticItemId lineItem = false) :
    (runAddToCart now payload countryCode c false).1 = c ∧
    (runDeleteItem c lineItem false).1 = c ∧
    (runUpdateCartQuantity c lineItem quantity false).1 = c ∧
    (runDeleteItem (runAddToCart now payload countryCode c true).1 otherItem false).1
      = (runAddToCart now payload countryCode c true).1 :=
  ⟨runAddToCart_fst_of_fail now payload countryCode c,
   runDeleteItem_fst_of_fail c lineItem,
   runUpdateCartQuantity_fst_of_fail c lineItem quantity hauth,
   runDeleteItem_fst_of_fail _ otherItem⟩

/-- C1 witness: the revert contract instantiated on `cartAuth` with the
authoritative id `li_1`. -/
theorem failed_remote_reverts_witness :
    isOptimisticItemId "li_1" = false ∧
    ((runAddToCart "2024-01-03T00:00:00.000Z" [samplePayloadTwo] "us" (some cartAuth) false).1
        = some cartAuth ∧
      (runDeleteItem (some cartAuth) "li_1" false).1 = some cartAuth ∧
      (runUpdateCartQuantity (some cartAuth) "li_1" 4 false).1 = some cartAuth ∧
      (runDeleteItem
          (runAddToCart "2024-01-03T00:00:00.000Z" [samplePayloadTwo] "us" (some cartAuth) true).1
          "li_1" false).1
        = (runAddToCart "2024-01-03T00:00:00.000Z" [samplePayloadTwo] "us"
            (some cartAuth) true).1) :=
  ⟨by decide,
   failed_remote_reverts_to_pre_operation_snapshot "2024-01-03T00:00:00.000Z"
     [samplePayloadTwo] "us" (some cartAuth) "li_1" "li_1" 4 (by decide)⟩

/-- C10 counterexample: the claim "every operation is total on the null
cart and preserves it" fails for bulk add — on the null cart, adding
variant `v1` with quantity 2 produces a non-null cart (the updater spreads
`null` into a fresh object holding the synthesized item). -/
theorem bulk_add_does_not_preserve_null_cart :
    (runAddToCart "2024-01-03T00:00:00.000Z" [samplePayloadTwo] "us" none true).1 ≠ none := by
  decide

/-- C10 (amended): on the null cart, delete and update-quantity return
immediately with the state unchanged and no remote call, and their
optimistic updaters return the previous `null` state unchanged; bulk add
is total on the null cart but does not preserve it — it treats `null` as
an empty cart and produces the cart built by its updater. -/
theorem null_cart_operations
    (lineItem : String) (quantity : Int) (ok : Bool) (now : String)
    (payload : List PayloadLineItem) (countryCode : String) :
    runDeleteItem none lineItem ok = (none, none) ∧
    runUpdateCartQuantity none lineItem quantity ok = (none, none) ∧
    applyDeleteUpdater lineItem none = none ∧
    applyUpdateUpdater lineItem quantity none = none ∧
    (runAddToCart now payload countryCode none true).1
      = some (applyAddUpdater now payload none) :=
  ⟨rfl, rfl, rfl, rfl, rfl⟩

/-! ### Bulk add: merge on existing variant, append otherwise -/

theorem jsOrZeroOpt_eq_getD (o : Option Int) : jsOrZeroOpt o = o.getD 0 := by
  cases o <;> simp [jsOrZeroOpt, jsOrZero_eq]

theorem addOnePair_of_no_match (cartId now : String) (li : PayloadLineItem)
    (items : List StoreCartLineItem)
    (h : ∀ it ∈ items, ¬ it.variant.map (·.id) = some li.productVariant.id) :
    addOnePair cartId now li items = items ++ [newOptimisticItem cartId now li] := by
  induction items with
  | nil => rfl
  | cons head tail ih =>
    have hh := h head (by simp)
    simp only [addOnePair, if_neg hh, List.cons_append, List.cons.injEq, true_and]
    exact ih fun it hit => h it (by simp [hit])

theorem addOnePair_of_first_match (cartId now : String) (li : PayloadLineItem)
    (pre post : List StoreCartLineItem) (item : StoreCartLineItem)
    (hpre : ∀ it ∈ pre, ¬ it.variant.map (·.id) = some li.productVariant.id)
    (hit : item.variant.map (·.id) = some li.productVariant.id) :
    addOnePair cartId now li (pre ++ item :: post)
      = pre ++ { item with quantity := item.quantity + li.quantity } :: post := by
  induction pre with
  | nil => simp only [List.nil_append, addOnePair]; rw [if_pos hit]
  | cons p ps ih =>
    have hp := hpre p (by simp)
    simp only [List.cons_append, addOnePair, if_neg hp, List.cons.injEq, true_and]
    exact ih fun it h2 => hpre it (by simp [h2])

/-- C2: each bulk-add pair is processed against the running item list: if
no line item carries the pair's variant id, a new line item is appended,
carrying the optimistic id for that variant and priced from the variant's
calculated price (0 when unavailable); if some line item carries it, the
first such item has its quantity incremented in place (same position, no
new row).  Concretely, optimistic adds of variant `v1` with quantities 2
then 3 before confirmation leave exactly one line item for `v1`, with
quantity 5. -/
theorem bulk_add_merges_duplicates_or_appends
    (cartId now : String) (li : PayloadLineItem)
    (items pre post : List StoreCartLineItem) (item : StoreCartLineItem) :
    ((∀ it ∈ items, ¬ it.variant.map (·.id) = some li.productVariant.id) →
      addOnePair cartId now li items = items ++ [newOptimisticItem cartId now li]) ∧
    ((∀ it ∈ pre, ¬ it.variant.map (·.id) = some li.productVariant.id) →
      item.variant.map (·.id) = some li.productVariant.id →
      addOnePair cartId now li (pre ++ item :: post)
        = pre ++ { item with quantity := item.quantity + li.quantity } :: post) ∧
    (newOptimisticItem cartId now li).id
      = generateOptimisticItemId li.productVariant.id ∧
    (newOptimisticItem cartId now li).unit_price
      = (li.productVariant.calculated_price.bind (·.calculated_amount)).getD 0 ∧
    ((itemsOf (runAddToCart "t2" [samplePayloadThree] "us"
          (runAddToCart "t1" [samplePayloadTwo] "us" none true).1 true).1).filter
        (fun it => it.variant.map (·.id) = some "v1")).map
        (fun it => (it.id, it.quantity)) = [("__optimistic__-v1", 5)] ∧
    (itemsOf (runAddToCart "t2" [samplePayloadThree] "us"
        (runAddToCart "t1" [samplePayloadTwo] "us" none true).1 true).1).length = 1 :=
  ⟨addOnePair_of_no_match cartId now li items,
   fun hpre hit => addOnePair_of_first_match cartId now li pre post item hpre hit,
   rfl,
   jsOrZeroOpt_eq_getD _,
   by decide,
   by decide⟩

/-- C2 witness: the miss and hit cases instantiated on concrete lists
(`itemAuth` has no variant, `itemOpt` carries variant `v1`). -/
theorem bulk_add_merges_witness :
    (∀ it ∈ [itemAuth], ¬ it.variant.map (·.id)
        = some samplePayloadTwo.productVariant.id) ∧
    itemOpt.variant.map (·.id) = some samplePayloadTwo.productVariant.id ∧
    (addOnePair "cart_1" "t9" samplePayloadTwo [itemAuth]
        = [itemAuth] ++ [newOptimisticItem "cart_1" "t9" samplePayloadTwo] ∧
      addOnePair "cart_1" "t9" samplePayloadTwo ([itemAuth] ++ itemOpt :: [])
        = [itemAuth] ++ { itemOpt with quantity := itemOpt.quantity + 2 } :: []) :=
  ⟨by decide, by decide,
   (bulk_add_merges_duplicates_or_appends "cart_1" "t9" samplePayloadTwo [itemAuth]
       [itemAuth] [] itemOpt).1 (by decide),
   ((bulk_add_merges_duplicates_or_appends "cart_1" "t9" samplePayloadTwo [itemAuth]
       [itemAuth] [] itemOpt).2.1 (by decide) (by decide))⟩

/-- C9: the line item synthesized for a variant with (falsy-coerced) unit
price `p` and requested quantity `q` has all six per-item monetary fields
(`subtotal`, `total`, `item_subtotal`, `item_total`, `original_subtotal`,
`original_total`) and `unit_price` equal to `p` alone — changing the
requested quantity changes only the `quantity` field; incrementing an
existing item's quantity likewise touches only `quantity`; and the
cart-level `item_subtotal` is what reflects `p * q` (shown for a single
synthesized item on an empty cart). -/
theorem synthesized_item_monetary_fields
    (cartId now : String) (li : PayloadLineItem) (q2 : Int)
    (item : StoreCartLineItem) (rest : List StoreCartLineItem) :
    (newOptimisticItem cartId now li).subtotal
        = jsOrZeroOpt (li.productVariant.calculated_price.bind (·.calculated_amount)) ∧
    (newOptimisticItem cartId now li).total
        = jsOrZeroOpt (li.productVariant.calculated_price.bind (·.calculated_amount)) ∧
    (newOptimisticItem cartId now li).item_subtotal
        = jsOrZeroOpt (li.productVariant.calculated_price.bind (·.calculated_amount)) ∧
    (newOptimisticItem cartId now li).item_total
        = jsOrZeroOpt (li.productVariant.calculated_price.bind (·.calculated_amount)) ∧
    (newOptimisticItem cartId now li).original_subtotal
        = jsOrZeroOpt (li.productVariant.calculated_price.bind (·.calculated_amount)) ∧
    (newOptimisticItem cartId now li).original_total
        = jsOrZeroOpt (li.productVariant.calculated_price.bind (·.calculated_amount)) ∧
    (newOptimisticItem cartId now li).unit_price
        = jsOrZeroOpt (li.productVariant.calculated_price.bind (·.calculated_amount)) ∧
    newOptimisticItem cartId now { li with quantity := q2 }
        = { newOptimisticItem cartId now li with quantity := q2 } ∧
    (item.variant.map (·.id) = some li.productVariant.id →
      addOnePair cartId now li (item :: rest)
        = { item with quantity := item.quantity + li.quantity } :: rest) ∧
    (applyAddUpdater now [li] none).item_subtotal
        = jsOrZeroOpt (li.productVariant.calculated_price.bind (·.calculated_amount))
            * li.quantity := by
  refine ⟨rfl, rfl, rfl, rfl, rfl, rfl, rfl, rfl,
    fun hit => by simp only [addOnePair]; rw [if_pos hit], ?_⟩
  simp [applyAddUpdater, itemsOf, addOnePair, calculateCartTotal_eq_sumItems, sumItems,
    newOptimisticItem]

/-- C9 witness: instantiated for variant `v1` (price 50) at quantity 2,
with the increment case on `itemOpt`. -/
theorem synthesized_item_monetary_fields_witness :
    itemOpt.variant.map (·.id) = some samplePayloadTwo.productVariant.id ∧
    (newOptimisticItem "cart_1" "t9" samplePayloadTwo).subtotal = 50 ∧
    addOnePair "cart_1" "t9" samplePayloadTwo (itemOpt :: [])
      = { itemOpt with quantity := itemOpt.quantity + 2 } :: [] ∧
    (applyAddUpdater "t9" [samplePayloadTwo] none).item_subtotal = 100 :=
  ⟨by decide,
   by decide,
   (synthesized_item_monetary_fields "cart_1" "t9" samplePayloadTwo 7 itemOpt []).2.2.2.2.2.2.2.2.1
     (by decide),
   by decide⟩

/-! ### The update-quantity fold: removal at quantity 0, replacement otherwise -/

theorem updateFold_of_quantity_zero (lineItem : String) (quantity : Int)
    (hq : quantity = 0) (its : List StoreCartLineItem) : ∀ init,
    its.foldl (fun acc item =>
        if item.id = lineItem then
          if quantity = 0 then acc else acc ++ [{ item with quantity := quantity }]
        else acc ++ [item]) init
      = init ++ its.filter (fun item => item.id ≠ lineItem) := by
  induction its with
  | nil => intro init; simp
  | cons it rest ih =>
    intro init
    by_cases h : it.id = lineItem
    · simp only [List.foldl_cons]
      rw [if_pos h, if_pos hq, ih]
      simp [List.filter_cons, h]
    · simp only [List.foldl_cons]
      rw [if_neg h, ih]
      simp [List.filter_cons, h, List.append_assoc]

theorem updateFold_of_quantity_nonzero (lineItem : String) (quantity : Int)
    (hq : ¬ quantity = 0) (its : List StoreCartLineItem) : ∀ init,
    its.foldl (fun acc item =>
        if item.id = lineItem then
          if quantity = 0 then acc else acc ++ [{ item with quantity := quantity }]
        else acc ++ [item]) init
      = init ++ its.map (fun item =>
          if item.id = lineItem then { item with quantity := quantity } else item) := by
  induction its with
  | nil => intro init; simp
  | cons it rest ih =>
    intro init
    by_cases h : it.id = lineItem
    · simp only [List.foldl_cons]
      rw [if_pos h, if_neg hq, ih]
      simp [List.map_cons, h, List.append_assoc]
    · simp only [List.foldl_cons]
      rw [if_neg h, ih]
      simp [List.map_cons, h, List.append_assoc]

theorem applyUpdateUpdater_eq_of_zero (lineItem : String) (quantity : Int)
    (hq : quantity = 0) (prev : B2BCart) (its : List StoreCartLineItem)
    (hi : prev.items = some its) :
    applyUpdateUpdater lineItem quantity (some prev)
      = some { prev with
          item_subtotal := sumItems (its.filter (fun it => it.id ≠ lineItem)),
          items := some (its.filter (fun it => it.id ≠ lineItem)) } := by
  unfold applyUpdateUpdater
  simp only [hi, Option.map_some']
  rw [updateFold_of_quantity_zero lineItem quantity hq its []]
  simp [jsOrZeroOpt, jsOrZero_eq]

theorem applyUpdateUpdater_eq_of_nonzero (lineItem : String) (quantity : Int)
    (hq : ¬ quantity = 0) (prev : B2BCart) (its : List StoreCartLineItem)
    (hi : prev.items = some its) :
    applyUpdateUpdater lineItem quantity (some prev)
      = some { prev with
          item_subtotal := sumItems (its.map (fun it =>
            if it.id = lineItem then { it with quantity := quantity } else it)),
          items := some (its.map (fun it =>
            if it.id = lineItem then { it with quantity := quantity } else it)) } := by
  unfold applyUpdateUpdater
  simp only [hi, Option.map_some']
  rw [updateFold_of_quantity_nonzero lineItem quantity hq its []]
  simp [jsOrZeroOpt, jsOrZero_eq]

/-- C5: updating a present id to quantity 0 removes the matching item and
recomputes the subtotal over the remaining items; updating it to a
positive quantity replaces only that item's `quantity` (a pointwise map),
keeping membership and order of all other items. -/
theorem update_quantity_removes_at_zero_replaces_otherwise
    (prev : B2BCart) (its : List StoreCartLineItem) (lineItem : String) (quantity : Int)
    (hi : prev.items = some its)
    (hfind : ((its.find? (fun it => it.id = lineItem)).isSome) = true)
    (hq : 0 < quantity) :
    (runUpdateCartQuantity (some prev) lineItem 0 true).1
      = some { prev with
          item_subtotal := sumItems (its.filter (fun it => it.id ≠ lineItem)),
          items := some (its.filter (fun it => it.id ≠ lineItem)) } ∧
    (runUpdateCartQuantity (some prev) lineItem quantity true).1
      = some { prev with
          item_subtotal := sumItems (its.map (fun it =>
            if it.id = lineItem then { it with quantity := quantity } else it)),
          items := some (its.map (fun it =>
            if it.id = lineItem then { it with quantity := quantity } else it)) } := by
  obtain ⟨it, hit⟩ := Option.isSome_iff_exists.mp hfind
  have hscrut : (itemsOf (some prev)).find? (fun it => it.id = lineItem) = some it := by
    simpa [itemsOf, hi] using hit
  constructor
  · have hm := applyUpdateUpdater_eq_of_zero lineItem 0 rfl prev its hi
    unfold runUpdateCartQuantity
    rw [hscrut]
    cases hopt : isOptimisticItemId lineItem <;> simp [hopt, hm]
  · have hm := applyUpdateUpdater_eq_of_nonzero lineItem quantity (by omega) prev its hi
    unfold runUpdateCartQuantity
    rw [hscrut]
    cases hopt : isOptimisticItemId lineItem <;> simp [hopt, hm]

/-- C5 witness: updating `li_1` in `cartAuth` to 0 and to 5. -/
theorem update_quantity_removes_witness :
    cartAuth.items = some [itemAuth, itemOpt] ∧
    (([itemAuth, itemOpt].find? (fun it => it.id = "li_1")).isSome) = true ∧
    (0 : Int) < 5 ∧
    ((runUpdateCartQuantity (some cartAuth) "li_1" 0 true).1
        = some { cartAuth with
            item_subtotal := sumItems ([itemAuth, itemOpt].filter (fun it => it.id ≠ "li_1")),
            items := some ([itemAuth, itemOpt].filter (fun it => it.id ≠ "li_1")) } ∧
      (runUpdateCartQuantity (some cartAuth) "li_1" 5 true).1
        = some { cartAuth with
            item_subtotal := sumItems ([itemAuth, itemOpt].map (fun it =>
              if it.id = "li_1" then { it with quantity := 5 } else it)),
            items := some ([itemAuth, itemOpt].map (fun it =>
              if it.id = "li_1" then { it with quantity := 5 } else it)) }) :=
  ⟨by decide, by decide, by decide,
   update_quantity_removes_at_zero_replaces_otherwise cartAuth [itemAuth, itemOpt]
     "li_1" 5 (by decide) (by decide) (by decide)⟩

/-- C6: a delete or update-quantity call whose id is not in the current
item list is a complete no-op — the state is returned unchanged and no
remote call is issued (both handlers are total functions, so no error is
raised either). -/
theorem absent_id_delete_update_noop
    (c : Option B2BCart) (lineItem : String) (quantity : Int) (ok : Bool)
    (h : (itemsOf c).find? (fun it => it.id = lineItem) = none) :
    runDeleteItem c lineItem ok = (c, none) ∧
    runUpdateCartQuantity c lineItem quantity ok = (c, none) := by
  unfold runDeleteItem runUpdateCartQuantity
  rw [h]
  exact ⟨rfl, rfl⟩

/-- C6 witness: id `li_404` is absent from `cartAuth`. -/
theorem absent_id_noop_witness :
    (itemsOf (some cartAuth)).find? (fun it => it.id = "li_404") = none ∧
    (runDeleteItem (some cartAuth) "li_404" true = (some cartAuth, none) ∧
      runUpdateCartQuantity (some cartAuth) "li_404" 3 true = (some cartAuth, none)) :=
  ⟨by decide, absent_id_delete_update_noop (some cartAuth) "li_404" 3 true (by decide)⟩

/-- C4: for an id present in the current item list, update-quantity issues
the remote `updateLineItem` call exactly when the id is authoritative
(lacks the optimistic marker); for an optimistic id the local mutation is
still applied but no remote call is made. -/
theorem update_remote_call_iff_authoritative
    (c : Option B2BCart) (lineItem : String) (quantity : Int) (ok : Bool)
    (h : ((itemsOf c).find? (fun it => it.id = lineItem)).isSome = true) :
    (runUpdateCartQuantity c lineItem quantity ok).2
      = (if isOptimisticItemId lineItem then none
          else some (RemoteCall.updateLine lineItem quantity)) ∧
    (isOptimisticItemId lineItem = true →
      (runUpdateCartQuantity c lineItem quantity ok).1
        = applyUpdateUpdater lineItem quantity c) := by
  obtain ⟨it, hit⟩ := Option.isSome_iff_exists.mp h
  unfold runUpdateCartQuantity
  rw [hit]
  constructor
  · cases hopt : isOptimisticItemId lineItem <;> simp [hopt]
  · intro hopt
    simp [hopt]

/-- C4 witness: in `cartAuth`, updating authoritative `li_1` issues the
remote call; updating optimistic `__optimistic__-v1` issues none yet still
applies the local mutation. -/
theorem update_remote_call_witness :
    (runUpdateCartQuantity (some cartAuth) "li_1" 3 true).2
        = some (RemoteCall.updateLine "li_1" 3) ∧
    (runUpdateCartQuantity (some cartAuth) "__optimistic__-v1" 3 true).2 = none ∧
    (runUpdateCartQuantity (some cartAuth) "__optimistic__-v1" 3 true).1
        = applyUpdateUpdater "__optimistic__-v1" 3 (some cartAuth) := by
  refine ⟨?_, ?_, ?_⟩
  · have h := (update_remote_call_iff_authoritative (some cartAuth) "li_1" 3 true (by decide)).1
    simpa [show isOptimisticItemId "li_1" = false from by decide] using h
  · have h := (update_remote_call_iff_authoritative (some cartAuth) "__optimistic__-v1" 3 true
      (by decide)).1
    simpa [show isOptimisticItemId "__optimistic__-v1" = true from by decide] using h
  · exact (update_remote_call_iff_authoritative (some cartAuth) "__optimistic__-v1" 3 true
      (by decide)).2 (by decide)

/-- C3: after each of the three mutating operations settles successfully
(and for delete/update, whenever the target id is present so the mutation
runs), the cart's `item_subtotal` equals the sum of
`unit_price * quantity` over the resulting item list — the updaters
recompute it from the new list rather than carrying it forward. -/
theorem subtotal_recomputed_after_each_operation
    (now : String) (payload : List PayloadLineItem) (countryCode : String)
    (c : Option B2BCart) (lineItem : String) (quantity : Int) :
    cartSubtotalOk ((runAddToCart now payload countryCode c true).1) ∧
    (((itemsOf c).find? (fun it => it.id = lineItem)).isSome = true →
      cartSubtotalOk ((runDeleteItem c lineItem true).1)) ∧
    (((itemsOf c).find? (fun it => it.id = lineItem)).isSome = true →
      cartSubtotalOk ((runUpdateCartQuantity c lineItem quantity true).1)) := by
  refine ⟨?_, ?_, ?_⟩
  · simp [runAddToCart, applyAddUpdater, cartSubtotalOk, calculateCartTotal_eq_sumItems]
  · intro h
    obtain ⟨it, hit⟩ := Option.isSome_iff_exists.mp h
    cases c with
    | none => simp [itemsOf] at hit
    | some prev =>
      unfold runDeleteItem
      rw [hit]
      cases hpi : prev.items <;>
        simp [applyDeleteUpdater, hpi, cartSubtotalOk, jsOrZeroOpt, jsOrZero_eq, sumItems]
  · intro h
    obtain ⟨it, hit⟩ := Option.isSome_iff_exists.mp h
    cases c with
    | none => simp [itemsOf] at hit
    | some prev =>
      unfold runUpdateCartQuantity
      rw [hit]
      cases hopt : isOptimisticItemId lineItem <;>
        cases hpi : prev.items <;>
          simp [hopt, applyUpdateUpdater, hpi, cartSubtotalOk, jsOrZeroOpt, jsOrZero_eq,
            sumItems]

/-- C3 witness: the invariant after each operation on `cartAuth`. -/
theorem subtotal_recomputed_witness :
    ((itemsOf (some cartAuth)).find? (fun it => it.id = "li_1")).isSome = true ∧
    (cartSubtotalOk ((runAddToCart "t9" [samplePayloadTwo] "us" (some cartAuth) true).1) ∧
      cartSubtotalOk ((runDeleteItem (some cartAuth) "li_1" true).1) ∧
      cartSubtotalOk ((runUpdateCartQuantity (some cartAuth) "li_1" 4 true).1)) :=
  ⟨by decide,
   (subtotal_recomputed_after_each_operation "t9" [samplePayloadTwo] "us"
       (some cartAuth) "li_1" 4).1,
   (subtotal_recomputed_after_each_operation "t9" [samplePayloadTwo] "us"
       (some cartAuth) "li_1" 4).2.1 (by decide),
   (subtotal_recomputed_after_each_operation "t9" [samplePayloadTwo] "us"
       (some cartAuth) "li_1" 4).2.2 (by decide)⟩

/-! ### The display sort: `strGt` is a strict order, `CartBefore` a total
preorder -/

theorem strGtAux_cons_nil (a : Char) (as : List Char) :
    strGtAux (a :: as) [] = true := rfl

theorem strGtAux_eq_false_of_nil (x : List Char) (h : strGtAux x [] = false) :
    x = [] := by
  cases x with
  | nil => rfl
  | cons a as => simp [strGtAux_cons_nil] at h

theorem notGt_total (x y : List Char) :
    strGtAux x y = false ∨ strGtAux y x = false := by
  induction x generalizing y with
  | nil => exact Or.inl rfl
  | cons a as ih =>
    cases y with
    | nil => exact Or.inr rfl
    | cons b bs =>
      rcases Nat.lt_trichotomy a.toNat b.toNat with h | h | h
      · left
        simp only [strGtAux]
        rw [if_neg (by omega), if_pos h]
      · rcases ih bs with h2 | h2
        · left
          simp only [strGtAux]
          rw [if_neg (by omega), if_neg (by omega)]
          exact h2
        · right
          simp only [strGtAux]
          rw [if_neg (by omega), if_neg (by omega)]
          exact h2
      · right
        simp only [strGtAux]
        rw [if_neg (by omega), if_pos h]

theorem notGt_trans (x y z : List Char) (h1 : strGtAux y x = false)
    (h2 : strGtAux z y = false) : strGtAux z x = false := by
  induction z generalizing x y with
  | nil => rfl
  | cons c cs ih =>
    cases x with
    | nil =>
      have hy := strGtAux_eq_false_of_nil y h1
      subst hy
      exact h2
    | cons a as =>
      cases y with
      | nil => simp [strGtAux_cons_nil] at h2
      | cons b bs =>
        simp only [strGtAux] at h1 h2 ⊢
        by_cases hab : a.toNat < b.toNat
        · rw [if_pos hab] at h1
          simp at h1
        · rw [if_neg hab] at h1
          by_cases hbc : b.toNat < c.toNat
          · rw [if_pos hbc] at h2
            simp at h2
          · rw [if_neg hbc] at h2
            rw [if_neg (show ¬ a.toNat < c.toNat by omega)]
            by_cases hca : c.toNat < a.toNat
            · rw [if_pos hca]
            · rw [if_neg hca]
              rw [if_neg (show ¬ b.toNat < a.toNat by omega)] at h1
              rw [if_neg (show ¬ c.toNat < b.toNat by omega)] at h2
              exact ih as bs h1 h2

theorem cartBefore_total (a b : StoreCartLineItem) : CartBefore a b ∨ CartBefore b a := by
  unfold CartBefore strGt
  rcases notGt_total (sortKey b).data (sortKey a).data with h | h
  · exact Or.inl h
  · exact Or.inr h

theorem cartBefore_trans (a b c : StoreCartLineItem) (h1 : CartBefore a b)
    (h2 : CartBefore b c) : CartBefore a c :=
  notGt_trans (sortKey a).data (sortKey b).data (sortKey c).data h1 h2

/-- C7: the item list exposed to consumers is the current item list
ordered by creation timestamp descending under JS string comparison
(`CartBefore a b`: `b`'s `created_at ?? ""` key does not strictly exceed
`a`'s), as a permutation of the current items; when every present
timestamp is a nonempty string, items lacking a timestamp come after every
item that has one (once a timestampless item appears, all later items are
timestampless); and the exposed view of a cart holding `items` is exactly
this sorted list. -/
theorem sorted_view_descending_by_created_at (items : List StoreCartLineItem)
    (cart : B2BCart)
    (hne : ∀ it ∈ items, ¬ it.created_at = some "") :
    (sortCartItems items).Perm items ∧
    (sortCartItems items).Pairwise CartBefore ∧
    (sortCartItems items).Pairwise
      (fun a b => a.created_at = none → b.created_at = none) ∧
    (cart.items = some items →
      (computeSortedItems (some cart)).2 = some (sortCartItems items)) := by
  haveI : IsTotal StoreCartLineItem CartBefore := ⟨cartBefore_total⟩
  haveI : IsTrans StoreCartLineItem CartBefore := ⟨cartBefore_trans⟩
  have hperm : (sortCartItems items).Perm items := List.perm_insertionSort CartBefore items
  have hsorted : (sortCartItems items).Pairwise CartBefore :=
    List.sorted_insertionSort CartBefore items
  refine ⟨hperm, hsorted, ?_, ?_⟩
  · refine List.Pairwise.imp_of_mem ?_ hsorted
    intro a b _ hb hab hnone
    have hkeya : (sortKey a).data = [] := by simp [sortKey, hnone]
    have hkeyb : (sortKey b).data = [] := by
      refine strGtAux_eq_false_of_nil _ ?_
      have := hab
      unfold CartBefore strGt at this
      rwa [hkeya] at this
    cases hc : b.created_at with
    | none => rfl
    | some s =>
      exfalso
      have hbmem : b ∈ items := hperm.mem_iff.mp hb
      have hs : s = "" := by
        apply String.ext
        have : sortKey b = s := by simp [sortKey, hc]
        rw [this] at hkeyb
        simpa using hkeyb
      exact hne b hbmem (hs ▸ hc)
  · intro hi
    simp [computeSortedItems, hi]

/-- C7 witness: the sorted view of `cartAuth` (items stored oldest-first)
is the permutation newest-first. -/
theorem sorted_view_descending_witness :
    (∀ it ∈ [itemAuth, itemOpt], ¬ it.created_at = some "") ∧
    ((sortCartItems [itemAuth, itemOpt]).Perm [itemAuth, itemOpt] ∧
      (sortCartItems [itemAuth, itemOpt]).Pairwise CartBefore ∧
      (sortCartItems [itemAuth, itemOpt]).Pairwise
        (fun a b => a.created_at = none → b.created_at = none) ∧
      (computeSortedItems (some cartAuth)).2 = some (sortCartItems [itemAuth, itemOpt])) := by
  have h := sorted_view_descending_by_created_at [itemAuth, itemOpt] cartAuth (by decide)
  exact ⟨by decide, h.1, h.2.1, h.2.2.1, h.2.2.2 (by decide)⟩

/-- C8 counterexample: computing the derived sorted view is **not**
mutation-free — `Array.prototype.sort` sorts the backing array in place,
so after the view is computed the working cart `cartAuth` (stored
oldest-first) no longer holds its item list in the original order. -/
theorem sorted_view_mutates_working_cart :
    (computeSortedItems (some cartAuth)).1 ≠ some cartAuth := by decide

/-- C8 (amended): computing the sorted view reorders the working cart's
item list in place: afterwards the cart's other fields are unchanged and
its item list is the sorted permutation of the previous list (same items,
possibly different order), which is also exactly the list handed to
consumers (they share it with the store rather than receiving an
independent snapshot). -/
theorem sorted_view_reorders_items_in_place (cart : B2BCart)
    (its : List StoreCartLineItem) (hi : cart.items = some its) :
    (computeSortedItems (some cart)).1
      = some { cart with items := some (sortCartItems its) } ∧
    (sortCartItems its).Perm its ∧
    (computeSortedItems (some cart)).2 = some (sortCartItems its) := by
  refine ⟨?_, List.perm_insertionSort CartBefore its, ?_⟩ <;>
    simp [computeSortedItems, hi]

/-- C8 amended-theorem witness: instantiated on `cartAuth`. -/
theorem sorted_view_reorders_witness :
    cartAuth.items = some [itemAuth, itemOpt] ∧
    ((computeSortedItems (some cartAuth)).1
        = some { cartAuth with items := some (sortCartItems [itemAuth, itemOpt]) } ∧
      (sortCartItems [itemAuth, itemOpt]).Perm [itemAuth, itemOpt] ∧
      (computeSortedItems (some cartAuth)).2 = some (sortCartItems [itemAuth, itemOpt])) :=
  ⟨by decide, sorted_view_reorders_items_in_place cartAuth [itemAuth, itemOpt] (by decide)⟩
